import Mathlib

set_option autoImplicit false

/-!
Verification of the cross-section-aware connection and auto-transition engine
of a photonic-layout library, against its natural-language specification.

The repository sources available are `gdsfactory/components/ring_double_heater.py`
and the notebook `docs/notebooks/rib_strip_autotransition.py`; the engine itself
(connection resolver, technology registry, transition resolver, route/bundle
planner, cell cache) is exercised by those files but its code is not present,
so those parts are modelled from the specification text, as flagged in each
doc comment.

Coordinates and angles are exact rationals.  Angles are degrees.  Since ℚ has
no trigonometric functions, a port carries, next to its `orientation` angle in
degrees, its direction unit vector `dir` (the cosine/sine pair of that angle);
rotations act on points by complex multiplication with such a unit vector,
exactly as the rotation matrices of the code do, and compose the same way.
-/

/-- A 2D point / vector (also used as a complex number for exact rotations). -/
abbrev Vec := ℚ × ℚ

/-- Componentwise addition. -/
def vadd (a b : Vec) : Vec := (a.1 + b.1, a.2 + b.2)

/-- Componentwise subtraction. -/
def vsub (a b : Vec) : Vec := (a.1 - b.1, a.2 - b.2)

/-- Negation, i.e. rotation by 180 degrees about the origin. -/
def vneg (a : Vec) : Vec := (-a.1, -a.2)

/-- Complex multiplication: composing rotations / applying a rotation to a point. -/
def cmul (a b : Vec) : Vec := (a.1 * b.1 - a.2 * b.2, a.1 * b.2 + a.2 * b.1)

/-- Complex conjugation: the inverse of a unit rotation vector. -/
def conj (a : Vec) : Vec := (a.1, -a.2)

/-- 2D cross product; zero iff the two vectors are parallel. -/
def cross (a b : Vec) : ℚ := a.1 * b.2 - a.2 * b.1

/-- Normalize an angle in degrees into the interval [0, 360). -/
def normDeg (x : ℚ) : ℚ := x - 360 * ⌊x / 360⌋

theorem normDeg_nonneg (x : ℚ) : 0 ≤ normDeg x := by
  have h := Int.floor_le (x / 360)
  unfold normDeg
  have h360 : (0:ℚ) < 360 := by norm_num
  nlinarith [h]

theorem normDeg_lt (x : ℚ) : normDeg x < 360 := by
  have h := Int.lt_floor_add_one (x / 360)
  unfold normDeg
  nlinarith [h]

theorem normDeg_sub_int (x : ℚ) (k : ℤ) : normDeg (x - 360 * k) = normDeg x := by
  unfold normDeg
  have h : (x - 360 * k) / 360 = x / 360 - k := by ring
  rw [h, Int.floor_sub_int]
  push_cast
  ring

/-- A port: a named, oriented, widthed connection point on a component, tagged
with a layer id and a cross-section id.  `dir` is the unit direction vector of
`orientation` (its cosine/sine pair), carried exactly alongside the angle. -/
structure Port where
  name : String
  position : Vec
  orientation : ℚ
  dir : Vec
  width : ℚ
  layer : Nat × Nat
  crossSectionId : String
deriving Repr, DecidableEq

/-- A rigid 2D transform: a rotation (stored both as its angle in degrees and
as its unit rotation vector) followed by a translation.  The optional mirror
of the spec defaults to "no mirror" and is not exercised by any claim. -/
structure Transform where
  rot : Vec
  rotDeg : ℚ
  translation : Vec
deriving Repr, DecidableEq

/-- The identity transform. -/
def idTransform : Transform := { rot := (1, 0), rotDeg := 0, translation := (0, 0) }

/-- Apply a rigid transform to a point: rotate, then translate. -/
def applyT (t : Transform) (p : Vec) : Vec := vadd (cmul t.rot p) t.translation

/-- A port as seen through a placed reference's transform: position is
transformed rigidly, orientation shifted by the rotation angle (normalized),
direction rotated. -/
def worldPort (t : Transform) (p : Port) : Port :=
  { p with
    position := applyT t p.position
    orientation := normDeg (p.orientation + t.rotDeg)
    dir := cmul t.rot p.dir }

/-- Modelled from the spec: the Connection Resolver's transform computation
(§4.2), whose code is not in the sources.  "Computes the rotation that makes
the moving port face the fixed port head-on: mated ports point in opposite
directions, so rotation = fixed.orientation - moving.orientation + 180°
(normalized to [0,360)).  Then translates so that, after rotation, the moving
port's position coincides exactly with the fixed port's position."  The unit
rotation vector of that angle is computed exactly from the two ports' direction
vectors: 180° plus (fixed minus moving) is minus the product of fixed's
direction with moving's conjugated direction. -/
def connectTransform (fixedPort movingPort : Port) : Transform :=
  let rot := vneg (cmul fixedPort.dir (conj movingPort.dir))
  { rot := rot
    rotDeg := normDeg (fixedPort.orientation - movingPort.orientation + 180)
    translation := vsub fixedPort.position (cmul rot movingPort.position) }

/-- C1: for every pair of ports (fixed and moving) with arbitrary positions and
orientations, after connect the moving port's transformed position equals the
fixed port's position, its transformed orientation equals the fixed port's
orientation + 180° (mod 360°), and the rotation applied is
fixed.orientation - moving.orientation + 180° normalized into [0,360). -/
theorem connect_mates_ports (fixedPort movingPort : Port) :
    (worldPort (connectTransform fixedPort movingPort) movingPort).position
      = fixedPort.position ∧
    (worldPort (connectTransform fixedPort movingPort) movingPort).orientation
      = normDeg (fixedPort.orientation + 180) ∧
    (connectTransform fixedPort movingPort).rotDeg
      = normDeg (fixedPort.orientation - movingPort.orientation + 180) ∧
    0 ≤ (connectTransform fixedPort movingPort).rotDeg ∧
    (connectTransform fixedPort movingPort).rotDeg < 360 := by
  refine ⟨?_, ?_, rfl, normDeg_nonneg _, normDeg_lt _⟩
  · simp only [worldPort, connectTransform, applyT, vadd, vsub, cmul, vneg, conj]
    exact Prod.ext (by ring) (by ring)
  · simp only [worldPort, connectTransform]
    have h : movingPort.orientation
        + normDeg (fixedPort.orientation - movingPort.orientation + 180)
        = (fixedPort.orientation + 180)
          - 360 * (⌊(fixedPort.orientation - movingPort.orientation + 180) / 360⌋ : ℤ) := by
      unfold normDeg
      ring
    rw [h, normDeg_sub_int]

/-- Failure modes of the Connection Resolver (§4.2 of the spec). -/
inductive ConnectError where
  | portNotFound (name : String)
  | widthMismatch (w1 w2 : ℚ)
deriving Repr, DecidableEq

/-- A placed instance of a component: the referenced component's name, its
ports in the component's local frame, and the placement transform. -/
structure Ref where
  compName : String
  ports : List Port
  transform : Transform
deriving Repr, DecidableEq

/-- Modelled from the spec: `connect(moving_ref, moving_port_name, fixed_port)`
(§4.2), whose code is not in the sources.  Fails with `PortNotFoundError` if
the name is absent and with `PortWidthMismatchError` if widths differ beyond
the tolerance; on success replaces the moving reference's transform with the
mating transform and touches nothing else. -/
def connect (movingRef : Ref) (portName : String) (fixedPort : Port)
    (tol : ℚ) : Except ConnectError Ref :=
  match movingRef.ports.find? (fun p => p.name == portName) with
  | none => .error (.portNotFound portName)
  | some mp =>
    if |mp.width - fixedPort.width| ≤ tol then
      .ok { movingRef with transform := connectTransform fixedPort mp }
    else
      .error (.widthMismatch mp.width fixedPort.width)

/-- `connect` acting on a world of placed references, the moving one given by
index: on success only that slot is rewritten. -/
def connectInWorld (refs : List Ref) (i : Nat) (portName : String)
    (fixedPort : Port) (tol : ℚ) : Except ConnectError (List Ref) :=
  match refs[i]? with
  | none => .error (.portNotFound portName)
  | some r => (connect r portName fixedPort tol).map (fun r' => refs.set i r')

theorem connect_ok_fields (r r' : Ref) (portName : String) (fixedPort : Port)
    (tol : ℚ) (h : connect r portName fixedPort tol = .ok r') :
    r'.compName = r.compName ∧ r'.ports = r.ports := by
  unfold connect at h
  split at h
  · exact absurd h (by simp)
  · split at h
    · cases h
      exact ⟨rfl, rfl⟩
    · exact absurd h (by simp)

/-- C8: connect mutates only the transform of the moving reference — every
other slot of the world is unchanged, and every field of the moving reference
other than its transform is unchanged; the fixed port is a value the call never
writes to. -/
theorem connect_frame (refs refs' : List Ref) (i : Nat) (portName : String)
    (fixedPort : Port) (tol : ℚ)
    (h : connectInWorld refs i portName fixedPort tol = .ok refs') :
    (∀ j, j ≠ i → refs'[j]? = refs[j]?) ∧
    ∃ r r', refs[i]? = some r ∧ refs'[i]? = some r' ∧
      r'.compName = r.compName ∧ r'.ports = r.ports := by
  unfold connectInWorld at h
  split at h
  next => exact absurd h (by simp)
  next r hr =>
    cases hc : connect r portName fixedPort tol with
    | error e => rw [hc] at h; exact absurd h (by simp [Except.map])
    | ok r'' =>
      rw [hc] at h
      simp only [Except.map, Except.ok.injEq] at h
      subst h
      have hlen : i < refs.length := by
        by_contra hge
        rw [List.getElem?_eq_none (by omega)] at hr
        exact absurd hr (by simp)
      refine ⟨fun j hj => List.getElem?_set_ne (by omega), r, r'', hr, ?_, ?_⟩
      · exact List.getElem?_set_self hlen
      · exact connect_ok_fields r r'' portName fixedPort tol hc

/-- A concrete straight-waveguide port at the origin, for witnesses. -/
def wPort : Port :=
  { name := "o1", position := (0, 0), orientation := 0, dir := (1, 0)
    width := 1, layer := (1, 0), crossSectionId := "xs_sc" }

/-- A concrete placed reference holding `wPort`, for witnesses. -/
def wRef : Ref := { compName := "straight", ports := [wPort], transform := idTransform }

/-- A concrete fixed port at (3,4) facing 90°, for witnesses. -/
def wFixed : Port := { wPort with position := (3, 4), orientation := 90, dir := (0, 1) }

/-- Witness for C8 at a concrete world. -/
theorem connect_frame_witness :
    ([wRef].set 0 { wRef with transform := connectTransform wFixed wPort })[1]?
        = [wRef][1]? ∧
    ∃ r r', [wRef][0]? = some r ∧
      ([wRef].set 0 { wRef with transform := connectTransform wFixed wPort })[0]?
        = some r' ∧
      r'.compName = r.compName ∧ r'.ports = r.ports := by
  have h := connect_frame [wRef]
    ([wRef].set 0 { wRef with transform := connectTransform wFixed wPort })
    0 "o1" wFixed 0 (by norm_num [connectInWorld, connect, wRef, wPort, wFixed, Except.map])
  exact ⟨h.1 1 (by decide), h.2⟩

/-- A GDS layer id, e.g. `(2000, 11)`. -/
abbrev Layer := Nat × Nat

/-- From the notebook: the rib waveguide intent layer. -/
def RIB_INTENT_LAYER : Layer := (2000, 11)

/-- From the notebook: the strip waveguide intent layer. -/
def STRIP_INTENT_LAYER : Layer := (2001, 11)

/-- The generic waveguide layer, used by the underlying strip-to-ridge taper. -/
def WG_LAYER : Layer := (1, 0)

/-- The generic slab layer, used by the underlying strip-to-ridge taper. -/
def SLAB90_LAYER : Layer := (3, 0)

/-- A built component, reduced to what the claims observe: its name, its
exposed ports, and its recorded length metadata. -/
structure Comp where
  name : String
  ports : List Port
  infoLength : ℚ
deriving Repr, DecidableEq

instance : Inhabited Port :=
  ⟨{ name := "", position := (0, 0), orientation := 0, dir := (1, 0)
     width := 0, layer := (0, 0), crossSectionId := "" }⟩

/-- Look a port up by name (the `c.ports[...]` accessor). -/
def getPort (c : Comp) (n : String) : Port :=
  (c.ports.find? (fun p => p.name == n)).getD default

/-- Default length of the strip-to-ridge taper. -/
def taperLength : ℚ := 10

/-- Modelled from the spec: `gf.c.taper_strip_to_ridge`, whose code is not in
the sources — a straight two-port adapter: port "o1" of width `width1` at the
origin facing 180°, port "o2" of width `width2` at the far end facing 0°. -/
def taper_strip_to_ridge (width1 width2 : ℚ) : Comp :=
  { name := "taper_strip_to_ridge"
    ports := [
      { name := "o1", position := (0, 0), orientation := 180, dir := (-1, 0)
        width := width1, layer := WG_LAYER, crossSectionId := "strip" },
      { name := "o2", position := (taperLength, 0), orientation := 0, dir := (1, 0)
        width := width2, layer := SLAB90_LAYER, crossSectionId := "rib" }]
    infoLength := taperLength }

/-- From `docs/notebooks/rib_strip_autotransition.py` (`strip_to_rib`): places
a `taper_strip_to_ridge`, re-exposes its two ports under the intent layers and
cross-sections with the given widths, and absorbs the taper. -/
def strip_to_rib (width1 width2 : ℚ) : Comp :=
  let taper := taper_strip_to_ridge width1 width2
  { name := "strip_to_rib"
    ports := [
      { getPort taper "o1" with
          name := "o1", layer := STRIP_INTENT_LAYER
          crossSectionId := "xs_sc", width := width1 },
      { getPort taper "o2" with
          name := "o2", layer := RIB_INTENT_LAYER
          crossSectionId := "xs_rc", width := width2 }]
    infoLength := taper.infoLength }

/-- From the notebook (`rib_to_strip`): the reverse transition, defined as a
`strip_to_rib` with swapped widths and relabeled ports. -/
def rib_to_strip (width1 width2 : ℚ) : Comp :=
  let taper := strip_to_rib width2 width1
  { name := "rib_to_strip"
    ports := [
      { getPort taper "o2" with name := "o1" },
      { getPort taper "o1" with name := "o2" }]
    infoLength := taper.infoLength }

/-- From the notebook (`taper_single_cross_section`): an intra-cross-section
width taper of length `|width1 - width2| * 10`; the underlying
`taper_cross_section_linear` is not in the sources and is modelled from the
spec as a straight two-port adapter of that length. -/
def taper_single_cross_section (xsId : String) (layer : Layer)
    (width1 width2 : ℚ) : Comp :=
  let length := |width1 - width2| * 10
  { name := "taper_single_cross_section"
    ports := [
      { name := "o1", position := (0, 0), orientation := 180, dir := (-1, 0)
        width := width1, layer := layer, crossSectionId := xsId },
      { name := "o2", position := (length, 0), orientation := 0, dir := (1, 0)
        width := width2, layer := layer, crossSectionId := xsId }]
    infoLength := length }

/-- From the notebook: `taper_strip = partial(taper_single_cross_section, cross_section="xs_sc")`. -/
def taper_strip : ℚ → ℚ → Comp :=
  taper_single_cross_section "xs_sc" STRIP_INTENT_LAYER

/-- From the notebook: `taper_rib = partial(taper_single_cross_section, cross_section="xs_rc")`. -/
def taper_rib : ℚ → ℚ → Comp :=
  taper_single_cross_section "xs_rc" RIB_INTENT_LAYER

/-- A transition-table key: either a single layer id (intra-cross-section
width taper) or an ordered pair (from-layer, to-layer). -/
inductive TransitionKey where
  | single (l : Layer)
  | pair (src dst : Layer)
deriving Repr, DecidableEq

/-- The error raised when no transition entry is found; names the two layer
ids (source, destination) involved. -/
structure NoTransitionDefinedError where
  src : Layer
  dst : Layer
deriving Repr, DecidableEq

/-- A transition table: keys bound to adapter factories taking `width1` and
`width2`.  Later registrations shadow earlier ones, as in a dict update. -/
abbrev TransitionTable := List (TransitionKey × (ℚ → ℚ → Comp))

/-- Modelled from the spec: `register_transition(key, factory)` (§4.1). -/
def registerTransition (tbl : TransitionTable) (k : TransitionKey)
    (f : ℚ → ℚ → Comp) : TransitionTable := (k, f) :: tbl

/-- Modelled from the spec: `resolve_transition(key) -> factory|None` (§4.1). -/
def resolveTransition (tbl : TransitionTable) (k : TransitionKey) :
    Option (ℚ → ℚ → Comp) :=
  (tbl.find? (fun e => e.1 == k)).map (fun e => e.2)

/-- From the notebook (`multi_wg_pdk.layer_transitions`): the registered
transition table of the demo PDK. -/
def layer_transitions : TransitionTable :=
  [ (.single RIB_INTENT_LAYER, taper_rib),
    (.single STRIP_INTENT_LAYER, taper_strip),
    (.pair RIB_INTENT_LAYER STRIP_INTENT_LAYER, rib_to_strip),
    (.pair STRIP_INTENT_LAYER RIB_INTENT_LAYER, strip_to_rib) ]

/-- Modelled from the spec: the Transition Resolver (§4.3), whose code is not
in the sources.  On differing cross-section ids it looks up the ordered pair
(source layer, destination layer); on equal ids but differing widths, the
single layer; transitions are never synthesized implicitly — a missing entry
is `NoTransitionDefinedError` naming both layers.  A found factory is
instantiated with `width1`, `width2` taken from the two mated port widths. -/
def resolveAdapter (tbl : TransitionTable) (srcPort dstPort : Port) :
    Except NoTransitionDefinedError (Option Comp) :=
  if srcPort.crossSectionId ≠ dstPort.crossSectionId then
    match resolveTransition tbl (.pair srcPort.layer dstPort.layer) with
    | some f => .ok (some (f srcPort.width dstPort.width))
    | none => .error ⟨srcPort.layer, dstPort.layer⟩
  else if srcPort.width ≠ dstPort.width then
    match resolveTransition tbl (.single srcPort.layer) with
    | some f => .ok (some (f srcPort.width dstPort.width))
    | none => .error ⟨srcPort.layer, dstPort.layer⟩
  else .ok none

/-- Modelled from the spec: the resolved adapter "is inserted into the
component tree as an ordinary child reference — it is not a special-cased
node" (§4.3 step 4). -/
def spliceAdapter (refs : List Ref) (adapter : Comp) (t : Transform) : List Ref :=
  refs ++ [{ compName := adapter.name, ports := adapter.ports, transform := t }]

/-- A rib-layer port of the given width, for statements and witnesses. -/
def ribPortW (w : ℚ) : Port :=
  { name := "o1", position := (0, 0), orientation := 0, dir := (1, 0)
    width := w, layer := RIB_INTENT_LAYER, crossSectionId := "xs_rc" }

/-- A strip-layer port of the given width, for statements and witnesses. -/
def stripPortW (w : ℚ) : Port :=
  { name := "o1", position := (0, 0), orientation := 0, dir := (1, 0)
    width := w, layer := STRIP_INTENT_LAYER, crossSectionId := "xs_sc" }

/-- C2: transition lookup is directed: registering a transition under (X, Y)
creates none under (Y, X), and a connection needing a Y→X transition when only
(X, Y) is registered fails with `NoTransitionDefinedError` naming both. -/
theorem transition_lookup_directed (tbl : TransitionTable) (X Y : Layer)
    (f : ℚ → ℚ → Comp) (srcPort dstPort : Port)
    (hXY : X ≠ Y) (hsrc : srcPort.layer = Y) (hdst : dstPort.layer = X)
    (hxs : srcPort.crossSectionId ≠ dstPort.crossSectionId)
    (hnone : resolveTransition tbl (.pair Y X) = none) :
    resolveTransition (registerTransition tbl (.pair X Y) f) (.pair Y X) = none ∧
    resolveAdapter (registerTransition tbl (.pair X Y) f) srcPort dstPort
      = .error ⟨Y, X⟩ := by
  have hkey : ((TransitionKey.pair X Y : TransitionKey) == TransitionKey.pair Y X) = false := by
    simp only [beq_eq_false_iff_ne, ne_eq, TransitionKey.pair.injEq, not_and]
    intro h1 _
    exact hXY h1
  have h1 : resolveTransition (registerTransition tbl (.pair X Y) f) (.pair Y X)
      = resolveTransition tbl (.pair Y X) := by
    simp [resolveTransition, registerTransition, List.find?_cons, hkey]
  refine ⟨h1.trans hnone, ?_⟩
  unfold resolveAdapter
  rw [if_pos hxs, hsrc, hdst, h1.trans hnone]

/-- Witness for C2: with only (strip, rib) registered, a rib→strip request
fails, naming the rib and strip layers. -/
theorem transition_lookup_directed_witness :
    resolveTransition
        (registerTransition [] (.pair STRIP_INTENT_LAYER RIB_INTENT_LAYER) strip_to_rib)
        (.pair RIB_INTENT_LAYER STRIP_INTENT_LAYER) = none ∧
    resolveAdapter
        (registerTransition [] (.pair STRIP_INTENT_LAYER RIB_INTENT_LAYER) strip_to_rib)
        (ribPortW (7/10)) (stripPortW 1)
      = .error ⟨RIB_INTENT_LAYER, STRIP_INTENT_LAYER⟩ :=
  transition_lookup_directed [] STRIP_INTENT_LAYER RIB_INTENT_LAYER strip_to_rib
    (ribPortW (7/10)) (stripPortW 1) (by decide) rfl rfl (by decide) rfl

/-- C3 counterexample: the adapter resolved for a strip→rib transition exposes
ports named "o1" and "o2", not "input" and "output". -/
theorem transition_adapter_names_cex :
    resolveAdapter layer_transitions (stripPortW 1) (ribPortW (7/10))
      = .ok (some (strip_to_rib 1 (7/10))) ∧
    (strip_to_rib 1 (7/10)).ports.map Port.name = ["o1", "o2"] ∧
    (strip_to_rib 1 (7/10)).ports.map Port.name ≠ ["input", "output"] :=
  ⟨rfl, rfl, by decide⟩

/-- C3 (amended): when a transition entry is found the resolver instantiates
the adapter factory with `width1`, `width2` taken from the two mated port
widths; the adapter has exactly two ports, named "o1" and "o2" (the library's
convention, rather than "input"/"output"), and it is spliced into the
component tree as an ordinary appended child reference. -/
theorem transition_adapter_instantiation (w1 w2 : ℚ) (refs : List Ref) (t : Transform) :
    resolveAdapter layer_transitions (stripPortW w1) (ribPortW w2)
      = .ok (some (strip_to_rib w1 w2)) ∧
    (strip_to_rib w1 w2).ports.length = 2 ∧
    (strip_to_rib w1 w2).ports.map Port.name = ["o1", "o2"] ∧
    (strip_to_rib w1 w2).ports.map Port.width = [w1, w2] ∧
    spliceAdapter refs (strip_to_rib w1 w2) t
      = refs ++ [{ compName := "strip_to_rib"
                   ports := (strip_to_rib w1 w2).ports, transform := t }] :=
  ⟨rfl, rfl, rfl, rfl, rfl⟩

/-- C4: composing the forward strip→rib adapter with the registered reverse
rib→strip adapter (widths swapped) and mating their rib-side ports yields two
outer ports that are anti-parallel (each faces exactly opposite the other) and
collinear along the common axis — the net transform between the two ends is a
pure translation. -/
theorem transition_roundtrip_pure_translation (w1 w2 : ℚ) :
    (worldPort
        (connectTransform (worldPort idTransform (getPort (strip_to_rib w1 w2) "o2"))
          (getPort (rib_to_strip w2 w1) "o1"))
        (getPort (rib_to_strip w2 w1) "o2")).dir
      = vneg (worldPort idTransform (getPort (strip_to_rib w1 w2) "o1")).dir ∧
    (worldPort
        (connectTransform (worldPort idTransform (getPort (strip_to_rib w1 w2) "o2"))
          (getPort (rib_to_strip w2 w1) "o1"))
        (getPort (rib_to_strip w2 w1) "o2")).orientation
      = normDeg
          ((worldPort idTransform (getPort (strip_to_rib w1 w2) "o1")).orientation + 180) ∧
    cross
      (vsub
        (worldPort
          (connectTransform (worldPort idTransform (getPort (strip_to_rib w1 w2) "o2"))
            (getPort (rib_to_strip w2 w1) "o1"))
          (getPort (rib_to_strip w2 w1) "o2")).position
        (worldPort idTransform (getPort (strip_to_rib w1 w2) "o1")).position)
      (worldPort
        (connectTransform (worldPort idTransform (getPort (strip_to_rib w1 w2) "o2"))
          (getPort (rib_to_strip w2 w1) "o1"))
        (getPort (rib_to_strip w2 w1) "o2")).dir = 0 := by
  have hA1 : getPort (strip_to_rib w1 w2) "o1"
      = { name := "o1", position := (0, 0), orientation := 180, dir := (-1, 0)
          width := w1, layer := STRIP_INTENT_LAYER, crossSectionId := "xs_sc" } := rfl
  have hA2 : getPort (strip_to_rib w1 w2) "o2"
      = { name := "o2", position := (10, 0), orientation := 0, dir := (1, 0)
          width := w2, layer := RIB_INTENT_LAYER, crossSectionId := "xs_rc" } := rfl
  have hB1 : getPort (rib_to_strip w2 w1) "o1"
      = { name := "o1", position := (10, 0), orientation := 0, dir := (1, 0)
          width := w2, layer := RIB_INTENT_LAYER, crossSectionId := "xs_rc" } := rfl
  have hB2 : getPort (rib_to_strip w2 w1) "o2"
      = { name := "o2", position := (0, 0), orientation := 180, dir := (-1, 0)
          width := w1, layer := STRIP_INTENT_LAYER, crossSectionId := "xs_sc" } := rfl
  rw [hA1, hA2, hB1, hB2]
  refine ⟨?_, ?_, ?_⟩ <;>
    norm_num [worldPort, connectTransform, applyT, cmul, vneg, vsub, vadd, conj, cross,
      idTransform, normDeg, Prod.ext_iff]

/-- Modelled from the spec: the component memoization cache behind `@gf.cell`,
whose code is not in the sources — components are "built once per distinct
(factory, arguments) signature and cached".  `σ` is the canonicalized
signature type; `builds` counts actual factory invocations. -/
structure CellCache (σ : Type) where
  entries : List (σ × Comp)
  builds : Nat
deriving Repr

/-- Modelled from the spec: one call through the cell cache — return the
cached component for the signature when present, otherwise build once and
record the result. -/
def cellCall {σ : Type} [DecidableEq σ] (cache : CellCache σ) (sig : σ)
    (build : σ → Comp) : Comp × CellCache σ :=
  match cache.entries.find? (fun e => decide (e.1 = sig)) with
  | some e => (e.2, cache)
  | none =>
    let c := build sig
    (c, ⟨(sig, c) :: cache.entries, cache.builds + 1⟩)

/-- C5: construction is memoized and deterministic per signature — a second
call with the identical signature returns the identical component (hence
identical port names, positions, orientations and widths) and performs no
further build: the cache state, build counter included, is unchanged, and at
most one build happens across the two calls. -/
theorem cell_cache_idempotent {σ : Type} [DecidableEq σ]
    (cache : CellCache σ) (sig : σ) (build : σ → Comp) :
    (cellCall (cellCall cache sig build).2 sig build).1
      = (cellCall cache sig build).1 ∧
    (cellCall (cellCall cache sig build).2 sig build).2.entries
      = (cellCall cache sig build).2.entries ∧
    (cellCall (cellCall cache sig build).2 sig build).2.builds
      = (cellCall cache sig build).2.builds ∧
    (cellCall (cellCall cache sig build).2 sig build).1.ports
      = (cellCall cache sig build).1.ports ∧
    (cellCall (cellCall cache sig build).2 sig build).2.builds ≤ cache.builds + 1 := by
  unfold cellCall
  cases hf : cache.entries.find? (fun e => decide (e.1 = sig)) with
  | some e => simp [hf]
  | none => simp [hf, List.find?_cons]

/-- A cross-section: a named waveguide specification (spec §3 data model). -/
structure CrossSection where
  id : String
  width : ℚ
  gap : ℚ
  claddingLayers : List Layer
  claddingOffsets : List ℚ
  radius : ℚ
deriving Repr, DecidableEq

/-- From the notebook (`strip_with_intent`): the strip cross-section with the
strip intent cladding layer and gap 2. -/
def strip_with_intent (width : ℚ) : CrossSection :=
  { id := "xs_sc", width := width, gap := 2
    claddingLayers := [STRIP_INTENT_LAYER], claddingOffsets := [0], radius := 10 }

/-- From the notebook (`rib_with_intent`): the rib cross-section with the rib
intent cladding layer and gap 5. -/
def rib_with_intent (width : ℚ) : CrossSection :=
  { id := "xs_rc", width := width, gap := 5
    claddingLayers := [RIB_INTENT_LAYER], claddingOffsets := [0], radius := 20 }

/-- Modelled from the spec: bundle pitch per route, "computed per route as
max(width, min-gap) + margin" (§4.4 step 4); the margin is the planner's
clearance setting. -/
def bundlePitch (xs : CrossSection) (margin : ℚ) : ℚ := max xs.width xs.gap + margin

/-- Modelled from the spec: total extent of a bundle of `n` parallel routes of
one cross-section: n−1 center-to-center pitches plus one route width. -/
def bundleExtent (n : Nat) (xs : CrossSection) (margin : ℚ) : ℚ :=
  ((n - 1 : ℕ) : ℚ) * bundlePitch xs margin + xs.width

/-- C6 counterexample: at equal width 6 — wider than both gaps — the gap-2
strip and gap-5 rib cross-sections give the same pitch, so a 2-route bundle
has equal, not strictly smaller, extent. -/
theorem bundle_pitch_cex :
    bundleExtent 2 (strip_with_intent 6) 0 = bundleExtent 2 (rib_with_intent 6) 0 ∧
    ¬ bundleExtent 2 (strip_with_intent 6) 0 < bundleExtent 2 (rib_with_intent 6) 0 := by
  constructor <;>
    norm_num [bundleExtent, bundlePitch, strip_with_intent, rib_with_intent, max_def]

/-- C6 (amended): bundle pitch per route is max(width, min-gap) + margin, a
deterministic function of the registered cross-section spec; for two
cross-sections of equal width with gaps 2 and 5, bundling n ≥ 2 parallel
routes gives strictly smaller total extent for the gap-2 cross-section
provided the shared width is below 5 (otherwise the width dominates both gaps
and the extents coincide). -/
theorem bundle_pitch_strict (w margin : ℚ) (n : Nat) (hw : w < 5) (hn : 2 ≤ n) :
    bundleExtent n (strip_with_intent w) margin
      < bundleExtent n (rib_with_intent w) margin := by
  unfold bundleExtent bundlePitch strip_with_intent rib_with_intent
  simp only
  have h5 : max w 5 = 5 := max_eq_right (le_of_lt hw)
  have h2 : max w 2 < 5 := max_lt hw (by norm_num)
  have hge : (1:ℚ) ≤ ((n - 1 : ℕ) : ℚ) := by
    have h : 1 ≤ n - 1 := by omega
    exact_mod_cast h
  rw [h5]
  have hmul := mul_lt_mul_of_pos_left
    (show max w 2 + margin < 5 + margin by linarith)
    (show (0:ℚ) < ((n - 1 : ℕ) : ℚ) by linarith)
  linarith

/-- Witness for C6 (amended) at width 1, margin 0, three routes. -/
theorem bundle_pitch_strict_witness :
    bundleExtent 3 (strip_with_intent 1) 0 < bundleExtent 3 (rib_with_intent 1) 0 :=
  bundle_pitch_strict 1 0 3 (by norm_num) (by norm_num)

/-- A candidate routing cross-section for the all-angle route planner. -/
structure RouteXS where
  id : String
  minRadius : ℚ
deriving Repr, DecidableEq

/-- The geometry of an attempted path at one candidate cross-section: the
radii its bends would need, and whether any two segments would overlap. -/
structure PathSpec where
  bendRadii : List ℚ
  overlap : Bool
deriving Repr, DecidableEq

/-- Modelled from the spec: purely geometric feasibility (§4.4 step 1) — every
bend can be made at no less than the cross-section's minimum bend radius, and
no two segments overlap. -/
def feasible (xs : RouteXS) (p : PathSpec) : Bool :=
  p.bendRadii.all (fun r => decide (xs.minRadius ≤ r)) && !p.overlap

/-- The planner's fatal error: every priority level was infeasible; reports
the attempted cross-section ids and the waypoints, for diagnosis. -/
structure UnroutableError where
  attempted : List String
  waypoints : List Vec
deriving Repr, DecidableEq

/-- Modelled from the spec: the Route Planner's cross-section selection
(§4.4), whose code is not in the sources.  `pathFor` is the geometric
construction of the candidate path for a cross-section over the waypoints
(the external geometry kernel); candidates are attempted strictly in priority
order, per-level infeasibility falls through to the next level, and
exhaustion fails with `UnroutableError`. -/
def planRoute (pathFor : RouteXS → List Vec → PathSpec) :
    List RouteXS → List Vec → Except UnroutableError RouteXS
  | [], wps => .error ⟨[], wps⟩
  | x :: rest, wps =>
    if feasible x (pathFor x wps) then .ok x
    else
      match planRoute pathFor rest wps with
      | .ok y => .ok y
      | .error e => .error ⟨x.id :: e.attempted, e.waypoints⟩

/-- C7: the planner attempts the candidate cross-sections strictly in list
order and selects the first geometrically feasible one; infeasibility at one
priority level only triggers fallback to the next, and only exhaustion of the
whole list fails, with `UnroutableError` reporting every attempted
cross-section id and the waypoints. -/
theorem planner_priority_fallback (pathFor : RouteXS → List Vec → PathSpec)
    (cands : List RouteXS) (wps : List Vec) :
    planRoute pathFor cands wps
      = match cands.find? (fun x => feasible x (pathFor x wps)) with
        | some x => .ok x
        | none => .error ⟨cands.map RouteXS.id, wps⟩ := by
  induction cands with
  | nil => rfl
  | cons x rest ih =>
    simp only [planRoute, List.find?_cons, List.map_cons]
    by_cases hf : feasible x (pathFor x wps)
    · simp [hf]
    · simp only [hf, if_false, Bool.false_eq_true, cond_false]
      rw [ih]
      cases rest.find? (fun y => feasible y (pathFor y wps)) <;> simp

/-- The error for an unresolvable cross-section name. -/
structure UnknownCrossSectionError where
  name : String
deriving Repr, DecidableEq

/-- Modelled from the spec: a Technology (PDK) — name, cross-section bindings,
and an optional base technology forming a fallback chain (§3, §4.1): `root`
has no base, `derived` falls back to its base on a lookup miss. -/
inductive Pdk where
  | root (name : String) (crossSections : List (String × CrossSection))
  | derived (name : String) (crossSections : List (String × CrossSection)) (base : Pdk)

/-- Modelled from the spec: `resolve_cross_section(name)` "walks self then
base chain; fails with `UnknownCrossSectionError` if exhausted" (§4.1). -/
def resolve_cross_section : Pdk → String → Except UnknownCrossSectionError CrossSection
  | .root _ xss, n =>
    match xss.find? (fun e => e.1 == n) with
    | some e => .ok e.2
    | none => .error ⟨n⟩
  | .derived _ xss b, n =>
    match xss.find? (fun e => e.1 == n) with
    | some e => .ok e.2
    | none => resolve_cross_section b n

/-- Modelled from the spec: building a component resolves every port's
cross-section id through the active technology — "every cross-section id
referenced by a port must resolve through the active technology's fallback
chain or building fails" (§3 invariants). -/
def buildComponentPorts (pdk : Pdk) :
    List Port → Except UnknownCrossSectionError (List Port)
  | [] => .ok []
  | p :: rest =>
    match resolve_cross_section pdk p.crossSectionId with
    | .ok _ => (buildComponentPorts pdk rest).map (fun l => p :: l)
    | .error e => .error e

/-- C9: resolution searches the technology's own cross-section map first and
then the base chain walked outward, returning the first binding found; an
exhausted chain is `UnknownCrossSectionError`, and a port referencing an
unresolvable cross-section id makes the enclosing component build fail. -/
theorem resolve_cross_section_chain
    (nm n : String) (xss : List (String × CrossSection))
    (b : Pdk) (entry : String × CrossSection) (pdk : Pdk) (ports : List Port)
    (p : Port) :
    (xss.find? (fun e => e.1 == n) = some entry →
      resolve_cross_section (.derived nm xss b) n = .ok entry.2) ∧
    (xss.find? (fun e => e.1 == n) = none →
      resolve_cross_section (.derived nm xss b) n = resolve_cross_section b n) ∧
    (xss.find? (fun e => e.1 == n) = none →
      resolve_cross_section (.root nm xss) n = .error ⟨n⟩) ∧
    (p ∈ ports → (∃ e0, resolve_cross_section pdk p.crossSectionId = .error e0) →
      ∃ e1, buildComponentPorts pdk ports = .error e1) := by
  refine ⟨?_, ?_, ?_, ?_⟩
  · intro h
    simp only [resolve_cross_section, h]
  · intro h
    simp only [resolve_cross_section, h]
  · intro h
    simp only [resolve_cross_section, h]
  · intro hp he
    induction ports with
    | nil => exact absurd hp (by simp)
    | cons q rest ih =>
      simp only [buildComponentPorts]
      cases hq : resolve_cross_section pdk q.crossSectionId with
      | error e => exact ⟨e, rfl⟩
      | ok cs =>
        rcases List.mem_cons.mp hp with hqp | hrest
        · obtain ⟨e0, he0⟩ := he
          rw [hqp] at he0
          rw [hq] at he0
          exact absurd he0 (by simp)
        · obtain ⟨e1, he1⟩ := ih hrest
          exact ⟨e1, by rw [he1]; rfl⟩

/-- The demo PDK's base technology, for the C9 witness. -/
def genericPdkW : Pdk := .root "generic" [("xs_sc", strip_with_intent (1/2))]

/-- The demo multi-waveguide PDK, for the C9 witness. -/
def multiPdkW : Pdk :=
  .derived "multi_wg_demo" [("xs_rc", rib_with_intent (1/2))] genericPdkW

/-- A port referencing a cross-section id bound nowhere, for the C9 witness. -/
def badPortW : Port := { wPort with crossSectionId := "xs_missing" }

/-- Witness for C9: an own-map hit, a fallback to the base chain, an
exhausted chain, and a failing build over a port with an unbound id. -/
theorem resolve_cross_section_chain_witness :
    resolve_cross_section (.derived "multi_wg_demo" [("xs_rc", rib_with_intent (1/2))]
        genericPdkW) "xs_rc" = .ok (rib_with_intent (1/2)) ∧
    resolve_cross_section (.derived "multi_wg_demo" [("xs_rc", rib_with_intent (1/2))]
        genericPdkW) "xs_sc" = resolve_cross_section genericPdkW "xs_sc" ∧
    resolve_cross_section (.root "generic" [("xs_sc", strip_with_intent (1/2))])
        "xs_missing" = .error ⟨"xs_missing"⟩ ∧
    ∃ e1, buildComponentPorts genericPdkW [badPortW] = .error e1 := by
  refine ⟨?_, ?_, ?_, ?_⟩
  · exact (resolve_cross_section_chain "multi_wg_demo" "xs_rc"
      [("xs_rc", rib_with_intent (1/2))] genericPdkW
      ("xs_rc", rib_with_intent (1/2)) genericPdkW [] default).1 rfl
  · exact (resolve_cross_section_chain "multi_wg_demo" "xs_sc"
      [("xs_rc", rib_with_intent (1/2))] genericPdkW
      ("xs_rc", rib_with_intent (1/2)) genericPdkW [] default).2.1 rfl
  · exact (resolve_cross_section_chain "generic" "xs_missing"
      [("xs_sc", strip_with_intent (1/2))] genericPdkW
      ("xs_sc", strip_with_intent (1/2)) genericPdkW [] default).2.2.1 rfl
  · exact (resolve_cross_section_chain "generic" "xs_missing"
      [("xs_sc", strip_with_intent (1/2))] genericPdkW
      ("xs_sc", strip_with_intent (1/2)) genericPdkW [badPortW] badPortW).2.2.2
      (by simp) ⟨⟨"xs_missing"⟩, rfl⟩

/-- The `ValueError` of `ring_double_heater`: "No ports found for
port_orientation {port_orientation} in {valid_orientations}" — it carries the
requested orientation and the set of valid via-port orientations. -/
structure PortOrientationError where
  port_orientation : Option ℚ
  valid_orientations : List ℚ
deriving Repr, DecidableEq

/-- From `ring_double_heater.py` (`c1.get_ports_list(orientation=...)`): the
ports of a reference filtered by orientation; `None` applies no filter. -/
def get_ports_list (ports : List Port) (orientation : Option ℚ) : List Port :=
  match orientation with
  | none => ports
  | some o => ports.filter (fun p => decide (p.orientation = o))

/-- From `ring_double_heater.py` line 114:
`{p.orientation for p in via.ports.values()}`. -/
def valid_orientations (viaPorts : List Port) : List ℚ :=
  (viaPorts.map Port.orientation).dedup

/-- From `gdsfactory/components/ring_double_heater.py`, lines 99–122: the
port-promotion slice of `ring_double_heater`, parametrized by the ports of
the instantiated `via_stack` component.  The two via references `c1`, `c2`
are placed by pure translations, which leave port names and orientations
unchanged, so both `get_ports_list` calls filter the same port set.  Ports
`o1..o4` are promoted from the two couplers; the selected via ports are
re-exposed under the prefixes `l_` and `r_`; an empty selection raises the
`ValueError`. -/
def ring_double_heater (viaPorts : List Port) (port_orientation : Option ℚ) :
    Except PortOrientationError (List String) :=
  let p1 := get_ports_list viaPorts port_orientation
  let p2 := get_ports_list viaPorts port_orientation
  if p1.isEmpty then
    .error ⟨port_orientation, valid_orientations viaPorts⟩
  else
    .ok (["o1", "o2", "o3", "o4"]
      ++ p1.map (fun p => "l_" ++ p.name)
      ++ p2.map (fun p => "r_" ++ p.name))

/-- C10: a non-None `port_orientation` matching no via-port orientation makes
`ring_double_heater` raise the `ValueError` carrying the requested
orientation and the valid orientation set; `None`, or an orientation matching
at least one via port, succeeds, exposing ports o1..o4 plus every matching
via port duplicated under the prefixes `l_` and `r_`. -/
theorem ring_double_heater_port_promotion (viaPorts : List Port) (o : ℚ) :
    ((∀ p ∈ viaPorts, p.orientation ≠ o) →
      ring_double_heater viaPorts (some o)
        = .error ⟨some o, valid_orientations viaPorts⟩) ∧
    ((∃ p ∈ viaPorts, p.orientation = o) →
      ∃ names, ring_double_heater viaPorts (some o) = .ok names ∧
        (∀ q ∈ ["o1", "o2", "o3", "o4"], q ∈ names) ∧
        ∀ p ∈ viaPorts, p.orientation = o →
          ("l_" ++ p.name) ∈ names ∧ ("r_" ++ p.name) ∈ names) ∧
    (viaPorts ≠ [] →
      ring_double_heater viaPorts none
        = .ok (["o1", "o2", "o3", "o4"]
            ++ viaPorts.map (fun p => "l_" ++ p.name)
            ++ viaPorts.map (fun p => "r_" ++ p.name))) := by
  refine ⟨?_, ?_, ?_⟩
  · intro h
    have hfil : viaPorts.filter (fun p => decide (p.orientation = o)) = [] := by
      rw [List.filter_eq_nil_iff]
      intro p hp
      simpa using h p hp
    simp [ring_double_heater, get_ports_list, hfil]
  · intro ⟨p0, hp0, ho0⟩
    have hne : (get_ports_list viaPorts (some o)).isEmpty = false := by
      rw [List.isEmpty_eq_false_iff_exists_mem]
      exact ⟨p0, by
        simp only [get_ports_list, List.mem_filter]
        exact ⟨hp0, by simp [ho0]⟩⟩
    refine ⟨["o1", "o2", "o3", "o4"]
        ++ (get_ports_list viaPorts (some o)).map (fun p => "l_" ++ p.name)
        ++ (get_ports_list viaPorts (some o)).map (fun p => "r_" ++ p.name), ?_, ?_, ?_⟩
    · simp only [ring_double_heater]
      rw [if_neg (by simp [hne])]
    · intro q hq
      simp only [List.mem_append]
      exact Or.inl (Or.inl hq)
    · intro p hp hpo
      have hmem : p ∈ get_ports_list viaPorts (some o) := by
        simp only [get_ports_list, List.mem_filter]
        exact ⟨hp, by simp [hpo]⟩
      constructor
      · simp only [List.mem_append]
        exact Or.inl (Or.inr (List.mem_map_of_mem _ hmem))
      · simp only [List.mem_append]
        exact Or.inr (List.mem_map_of_mem _ hmem)
  · intro h
    have hne : (get_ports_list viaPorts none).isEmpty = false := by
      simp only [get_ports_list]
      cases viaPorts with
      | nil => exact absurd rfl h
      | cons a l => rfl
    simp only [ring_double_heater]
    rw [if_neg (by simp [hne])]
    simp only [get_ports_list]

/-- The four electrical ports of the default via stack, with the orientations
of its four sides, for the C10 witness. -/
def viaPortsW : List Port :=
  [ { name := "e1", position := (-2, 0), orientation := 180, dir := (-1, 0)
      width := 4, layer := (49, 0), crossSectionId := "xs_metal_routing" },
    { name := "e2", position := (0, 2), orientation := 90, dir := (0, 1)
      width := 4, layer := (49, 0), crossSectionId := "xs_metal_routing" },
    { name := "e3", position := (2, 0), orientation := 0, dir := (1, 0)
      width := 4, layer := (49, 0), crossSectionId := "xs_metal_routing" },
    { name := "e4", position := (0, -2), orientation := 270, dir := (0, -1)
      width := 4, layer := (49, 0), crossSectionId := "xs_metal_routing" } ]

/-- Witness for C10: orientation 45 matches no via port and errors with the
requested and valid orientations; orientation 90 matches one and succeeds
with the promoted ports; `None` succeeds with all via ports promoted. -/
theorem ring_double_heater_port_promotion_witness :
    ring_double_heater viaPortsW (some 45)
      = .error ⟨some 45, valid_orientations viaPortsW⟩ ∧
    (∃ names, ring_double_heater viaPortsW (some 90) = .ok names ∧
      (∀ q ∈ ["o1", "o2", "o3", "o4"], q ∈ names) ∧
      ∀ p ∈ viaPortsW, p.orientation = 90 →
        ("l_" ++ p.name) ∈ names ∧ ("r_" ++ p.name) ∈ names) ∧
    ring_double_heater viaPortsW none
      = .ok (["o1", "o2", "o3", "o4"]
          ++ viaPortsW.map (fun p => "l_" ++ p.name)
          ++ viaPortsW.map (fun p => "r_" ++ p.name)) := by
  refine ⟨?_, ?_, ?_⟩
  · exact (ring_double_heater_port_promotion viaPortsW 45).1 (by decide)
  · exact (ring_double_heater_port_promotion viaPortsW 90).2.1 (by decide)
  · exact (ring_double_heater_port_promotion viaPortsW 0).2.2 (by decide)
